import Mathlib

set_option maxHeartbeats 1000000

/-! Shallow embedding of the synchronization-variable layer found in
`src/runtime/include/threads-pthreads/chpl_cfg_threads.h`.

The seven sync-variable macros and the three single-variable macros of
that header are embedded as Lean functions over explicit cell states.
The blocking primitives they call (`chpl_sync_wait_full_and_lock`,
`chpl_sync_mark_and_signal_full`, `chpl_single_lock`, `chpl_error`,
`chpl_internal_error`, ...) are declared elsewhere in the runtime and
are not among the sources at hand; their behaviour is modelled from the
specification of the blocking primitive library (sections 4.1 and 6 of
the design document).  A wait that can never complete is represented by
the result `none`; an internal fault of a lock primitive (a nonzero
return value) is an explicit `fault` argument threaded into each
operation.  Error reporting is modelled as events: a fatal internal
error and a recoverable user-visible error are distinct constructors
carrying the reported message, and condition-variable broadcasts are
events as well, so that theorems can speak about which waiters an
operation wakes. -/

/-- State of a sync variable: the stored payload value, the fullness
flag `is_full`, and whether the mutex of the cell is currently held.
This mirrors `chpl_sync_aux_t` plus the `value` field of the enclosing
sync-variable record. -/
structure SyncCell where
  value : Int
  is_full : Bool
  lockHeld : Bool
  deriving Repr, DecidableEq

/-- State of a single-assignment variable: payload value, fullness flag
and lock status, mirroring `chpl_single_aux_t` plus the `value` field. -/
structure SingleCell where
  value : Int
  is_full : Bool
  lockHeld : Bool
  deriving Repr, DecidableEq

/-- Observable events of one operation, in order of occurrence:
broadcasts on the two condition variables, a fatal internal error
(`chpl_internal_error`, which aborts the process), and a recoverable
user-visible error (`chpl_error`, which returns to the caller). -/
inductive Event where
  | signalFull : Event
  | signalEmpty : Event
  | fatalError : String → Event
  | userError : String → Event
  deriving Repr, DecidableEq

/-- Result of a lock-acquiring wait primitive: the lock was acquired
(returning 0 in C, with the updated cell), the primitive reported an
internal fault (a nonzero return), or the wait can never complete. -/
inductive LockResult (α : Type) where
  | acquired : α → LockResult α
  | failed : LockResult α
  | blocksForever : LockResult α
  deriving Repr, DecidableEq

/-- Modelled from the spec: `chpl_sync_wait_full_and_lock` acquires the
lock and waits until the cell is Full, returning 0 with the lock held;
it fails only if lock acquisition itself reports an internal fault.
The C implementation is not among the sources at hand.  Waiting on an
Empty cell that nothing fills never completes. -/
def chpl_sync_wait_full_and_lock (fault : Bool) (c : SyncCell) :
    LockResult SyncCell :=
  if fault then LockResult.failed
  else if c.is_full then LockResult.acquired { c with lockHeld := true }
  else LockResult.blocksForever

/-- Modelled from the spec: `chpl_sync_wait_empty_and_lock`, symmetric
to the full-waiting primitive, waiting for the Empty state. -/
def chpl_sync_wait_empty_and_lock (fault : Bool) (c : SyncCell) :
    LockResult SyncCell :=
  if fault then LockResult.failed
  else if c.is_full then LockResult.blocksForever
  else LockResult.acquired { c with lockHeld := true }

/-- Modelled from the spec: `chpl_sync_lock` is a plain blocking
acquire of the cell mutex; it returns nonzero only on an internal
fault, modelled by the result `none`. -/
def chpl_sync_lock (fault : Bool) (c : SyncCell) : Option SyncCell :=
  if fault then none else some { c with lockHeld := true }

/-- Modelled from the spec: `chpl_sync_unlock` releases the cell mutex. -/
def chpl_sync_unlock (c : SyncCell) : SyncCell :=
  { c with lockHeld := false }

/-- Modelled from the spec: `chpl_sync_mark_and_signal_full` sets the
state to Full, broadcasts to all waiters on the full condition variable
and releases the lock. -/
def chpl_sync_mark_and_signal_full (c : SyncCell) : SyncCell × List Event :=
  ({ c with is_full := true, lockHeld := false }, [Event.signalFull])

/-- Modelled from the spec: `chpl_sync_mark_and_signal_empty` sets the
state to Empty, broadcasts to all waiters on the empty condition
variable and releases the lock. -/
def chpl_sync_mark_and_signal_empty (c : SyncCell) : SyncCell × List Event :=
  ({ c with is_full := false, lockHeld := false }, [Event.signalEmpty])

/-- Outcome of a read macro: the destination variable after the
operation, the cell after the operation, and the emitted events. -/
structure ReadResult where
  dest : Int
  cell : SyncCell
  events : List Event
  deriving Repr, DecidableEq

/-- Outcome of a write macro: the cell after the operation and the
emitted events. -/
structure WriteResult where
  cell : SyncCell
  events : List Event
  deriving Repr, DecidableEq

/-- Embedding of the `_chpl_read_FE` macro: wait for Full with the lock
held, copy the value into the destination, mark Empty and signal the
empty-waiters.  On a nonzero return of the wait primitive the body is
skipped silently, leaving the destination unchanged. -/
def chpl_read_FE (fault : Bool) (x : Int) (y : SyncCell) :
    Option ReadResult :=
  match chpl_sync_wait_full_and_lock fault y with
  | LockResult.acquired y1 =>
      let v := y1.value
      let p := chpl_sync_mark_and_signal_empty y1
      some ⟨v, p.1, p.2⟩
  | LockResult.failed => some ⟨x, y, []⟩
  | LockResult.blocksForever => none

/-- Embedding of the `_chpl_read_FF` macro: wait for Full with the lock
held, copy the value, then mark Full again and re-signal the
full-waiters.  On a nonzero return of the wait primitive the body is
skipped silently. -/
def chpl_read_FF (fault : Bool) (x : Int) (y : SyncCell) :
    Option ReadResult :=
  match chpl_sync_wait_full_and_lock fault y with
  | LockResult.acquired y1 =>
      let v := y1.value
      let p := chpl_sync_mark_and_signal_full y1
      some ⟨v, p.1, p.2⟩
  | LockResult.failed => some ⟨x, y, []⟩
  | LockResult.blocksForever => none

/-- Embedding of the `_chpl_read_XX` macro: take the lock, copy the
value as-is, release the lock; no state change and no signalling.  On a
nonzero return of the lock primitive the body is skipped silently. -/
def chpl_read_XX (fault : Bool) (x : Int) (y : SyncCell) : ReadResult :=
  match chpl_sync_lock fault y with
  | some y1 => ⟨y1.value, chpl_sync_unlock y1, []⟩
  | none => ⟨x, y, []⟩

/-- Embedding of the `_chpl_write_EF` macro: wait for Empty with the
lock held, store the value, mark Full and signal the full-waiters.  On
a nonzero return of the wait primitive it raises the fatal internal
error named after the operation. -/
def chpl_write_EF (fault : Bool) (v : Int) (x : SyncCell) :
    Option WriteResult :=
  match chpl_sync_wait_empty_and_lock fault x with
  | LockResult.acquired x1 =>
      let x2 := { x1 with value := v }
      let p := chpl_sync_mark_and_signal_full x2
      some ⟨p.1, p.2⟩
  | LockResult.failed =>
      some ⟨x, [Event.fatalError "invalid mutex in _chpl_write_EF"]⟩
  | LockResult.blocksForever => none

/-- Embedding of the `_chpl_write_FF` macro: wait for Full with the
lock held, overwrite the value, mark Full again and signal the
full-waiters.  On a nonzero return of the wait primitive it raises the
fatal internal error named after the operation. -/
def chpl_write_FF (fault : Bool) (v : Int) (x : SyncCell) :
    Option WriteResult :=
  match chpl_sync_wait_full_and_lock fault x with
  | LockResult.acquired x1 =>
      let x2 := { x1 with value := v }
      let p := chpl_sync_mark_and_signal_full x2
      some ⟨p.1, p.2⟩
  | LockResult.failed =>
      some ⟨x, [Event.fatalError "invalid mutex in _chpl_write_FF"]⟩
  | LockResult.blocksForever => none

/-- Embedding of the `_chpl_write_XF` macro: take the lock, store the
value, mark Full and signal the full-waiters.  On a nonzero return of
the lock primitive it raises the fatal internal error named after the
operation. -/
def chpl_write_XF (fault : Bool) (v : Int) (x : SyncCell) : WriteResult :=
  match chpl_sync_lock fault x with
  | some x1 =>
      let x2 := { x1 with value := v }
      let p := chpl_sync_mark_and_signal_full x2
      ⟨p.1, p.2⟩
  | none => ⟨x, [Event.fatalError "invalid mutex in _chpl_write_XF"]⟩

/-- Embedding of the `_chpl_sync_reset` macro: take the lock, store the
default value 0, mark Empty and signal the empty-waiters.  On a nonzero
return of the lock primitive it raises the fatal internal error named
after the operation. -/
def chpl_sync_reset (fault : Bool) (x : SyncCell) : WriteResult :=
  match chpl_sync_lock fault x with
  | some x1 =>
      let x2 := { x1 with value := 0 }
      let p := chpl_sync_mark_and_signal_empty x2
      ⟨p.1, p.2⟩
  | none => ⟨x, [Event.fatalError "invalid mutex in _chpl_sync_reset"]⟩

/-- Modelled from the spec: `chpl_single_wait_full` waits until the
single cell is Full, returning 0 with the lock held; it fails only if
lock acquisition itself reports an internal fault.  Waiting on an Empty
cell that nothing fills never completes. -/
def chpl_single_wait_full (fault : Bool) (c : SingleCell) :
    LockResult SingleCell :=
  if fault then LockResult.failed
  else if c.is_full then LockResult.acquired { c with lockHeld := true }
  else LockResult.blocksForever

/-- Modelled from the spec: `chpl_single_lock` is a plain blocking
acquire of the single-cell mutex; nonzero return only on an internal
fault, modelled by the result `none`. -/
def chpl_single_lock (fault : Bool) (c : SingleCell) : Option SingleCell :=
  if fault then none else some { c with lockHeld := true }

/-- Modelled from the spec: `chpl_single_mark_and_signal_full` sets the
state to Full, broadcasts to all waiters on the full condition variable
and releases the lock. -/
def chpl_single_mark_and_signal_full (c : SingleCell) :
    SingleCell × List Event :=
  ({ c with is_full := true, lockHeld := false }, [Event.signalFull])

/-- Outcome of a single-cell read: destination variable, cell after the
operation and emitted events. -/
structure SingleReadResult where
  dest : Int
  cell : SingleCell
  events : List Event
  deriving Repr, DecidableEq

/-- Outcome of a single-cell write or reset: cell after the operation
and emitted events. -/
structure SingleWriteResult where
  cell : SingleCell
  events : List Event
  deriving Repr, DecidableEq

/-- Embedding of the `_chpl_single_read_FF` macro.  The first argument
`fastObs` is the answer of the non-blocking `chpl_single_is_full` check
(modelled from the spec as a best-effort, possibly stale observation
taken without the lock).  If it reports Full, the value is returned
immediately with no lock acquisition and no signalling; otherwise the
operation falls back to `chpl_single_wait_full`, reads the value and
re-signals the full-waiters.  On a nonzero return of the wait primitive
the body is skipped silently. -/
def chpl_single_read_FF (fastObs : Bool) (fault : Bool) (x : Int)
    (y : SingleCell) : Option SingleReadResult :=
  if fastObs then some ⟨y.value, y, []⟩
  else
    match chpl_single_wait_full fault y with
    | LockResult.acquired y1 =>
        let v := y1.value
        let p := chpl_single_mark_and_signal_full y1
        some ⟨v, p.1, p.2⟩
    | LockResult.failed => some ⟨x, y, []⟩
    | LockResult.blocksForever => none

/-- Embedding of the `_chpl_single_write_EF` macro: take the lock; if
the cell is already Full, report the recoverable error
"single var already defined" via `chpl_error` and fall off the end of
the macro (in particular without releasing the lock); otherwise store
the value, mark Full and signal the full-waiters (which releases the
lock).  On a nonzero return of the lock primitive it raises the fatal
internal error named after the operation. -/
def chpl_single_write_EF (fault : Bool) (v : Int) (x : SingleCell) :
    SingleWriteResult :=
  match chpl_single_lock fault x with
  | some x1 =>
      if x1.is_full then
        ⟨x1, [Event.userError "single var already defined"]⟩
      else
        let x2 := { x1 with value := v }
        let p := chpl_single_mark_and_signal_full x2
        ⟨p.1, p.2⟩
  | none =>
      ⟨x, [Event.fatalError "invalid mutex in _chpl_single_write_EF"]⟩

/-- Embedding of the `_chpl_single_reset` macro: store the default
value 0 and clear `is_full` directly, with no lock acquisition, no
signalling and no error path. -/
def chpl_single_reset (x : SingleCell) : SingleCell × List Event :=
  ({ x with value := 0, is_full := false }, [])

/-- C1: for every sync cell c that is Empty and every value v,
`writeEF(c, v)` followed by `readFE(c)` returns v and leaves c Empty. -/
theorem sync_writeEF_then_readFE (c : SyncCell) (v x : Int)
    (h : c.is_full = false) :
    ∃ r1, chpl_write_EF false v c = some r1 ∧
    ∃ r2, chpl_read_FE false x r1.cell = some r2 ∧
      r2.dest = v ∧ r2.cell.is_full = false := by
  simp [chpl_write_EF, chpl_sync_wait_empty_and_lock, h,
    chpl_sync_mark_and_signal_full, chpl_read_FE,
    chpl_sync_wait_full_and_lock, chpl_sync_mark_and_signal_empty]

/-- Witness for C1 at a concrete Empty cell and value 5. -/
theorem sync_writeEF_then_readFE_witness :
    (SyncCell.mk 0 false false).is_full = false ∧
    (∃ r1, chpl_write_EF false 5 (SyncCell.mk 0 false false) = some r1 ∧
     ∃ r2, chpl_read_FE false 0 r1.cell = some r2 ∧
       r2.dest = 5 ∧ r2.cell.is_full = false) :=
  ⟨rfl, sync_writeEF_then_readFE (SyncCell.mk 0 false false) 5 0 rfl⟩

/-- C2 counterexample: a second `writeEF` on a single cell that was
filled with 5 reports the message "single var already defined", not
"single variable already assigned" as the claim states. -/
theorem single_double_write_message_cex :
    (chpl_single_write_EF false 7
        (chpl_single_write_EF false 5 (SingleCell.mk 0 false false)).cell).events
      = [Event.userError "single var already defined"] ∧
    (chpl_single_write_EF false 7
        (chpl_single_write_EF false 5 (SingleCell.mk 0 false false)).cell).events
      ≠ [Event.userError "single variable already assigned"] :=
  ⟨rfl, by decide⟩

/-- C2 amended: after a first successful `writeEF(s, v)` the cell is
Full with value v, and a second `writeEF(s, v2)` raises the recoverable
error "single var already defined" and leaves the value equal to v and
the state Full. -/
theorem single_double_write_amended (s : SingleCell) (v v2 : Int)
    (h : s.is_full = false) :
    (chpl_single_write_EF false v s).cell.is_full = true ∧
    (chpl_single_write_EF false v s).cell.value = v ∧
    (chpl_single_write_EF false v2
        (chpl_single_write_EF false v s).cell).events
      = [Event.userError "single var already defined"] ∧
    (chpl_single_write_EF false v2
        (chpl_single_write_EF false v s).cell).cell.value = v ∧
    (chpl_single_write_EF false v2
        (chpl_single_write_EF false v s).cell).cell.is_full = true := by
  simp [chpl_single_write_EF, chpl_single_lock, h,
    chpl_single_mark_and_signal_full]

/-- Witness for the amended C2 at a concrete Empty cell, v = 5, v2 = 7. -/
theorem single_double_write_amended_witness :
    (SingleCell.mk 0 false false).is_full = false ∧
    ((chpl_single_write_EF false 5 (SingleCell.mk 0 false false)).cell.is_full
        = true ∧
     (chpl_single_write_EF false 5 (SingleCell.mk 0 false false)).cell.value
        = 5 ∧
     (chpl_single_write_EF false 7
         (chpl_single_write_EF false 5 (SingleCell.mk 0 false false)).cell).events
       = [Event.userError "single var already defined"] ∧
     (chpl_single_write_EF false 7
         (chpl_single_write_EF false 5 (SingleCell.mk 0 false false)).cell).cell.value
       = 5 ∧
     (chpl_single_write_EF false 7
         (chpl_single_write_EF false 5 (SingleCell.mk 0 false false)).cell).cell.is_full
       = true) :=
  ⟨rfl, single_double_write_amended (SingleCell.mk 0 false false) 5 7 rfl⟩

/-- C3: when the lock-acquisition primitive reports an internal fault,
`writeEF`, `writeFF`, `writeXF` and `reset` each raise a fatal internal
error naming the failing operation and leave the cell unchanged, while
`readFE`, `readFF` and `readXX` skip the read silently, raising no
error and leaving the destination variable unchanged. -/
theorem sync_fault_behaviour (c : SyncCell) (x v : Int) :
    chpl_write_EF true v c
      = some ⟨c, [Event.fatalError "invalid mutex in _chpl_write_EF"]⟩ ∧
    chpl_write_FF true v c
      = some ⟨c, [Event.fatalError "invalid mutex in _chpl_write_FF"]⟩ ∧
    chpl_write_XF true v c
      = ⟨c, [Event.fatalError "invalid mutex in _chpl_write_XF"]⟩ ∧
    chpl_sync_reset true c
      = ⟨c, [Event.fatalError "invalid mutex in _chpl_sync_reset"]⟩ ∧
    chpl_read_FE true x c = some ⟨x, c, []⟩ ∧
    chpl_read_FF true x c = some ⟨x, c, []⟩ ∧
    chpl_read_XX true x c = ⟨x, c, []⟩ :=
  ⟨rfl, rfl, rfl, rfl, rfl, rfl, rfl⟩

/-- C4: `readFF` on a single cell first consults the non-blocking
fullness check: a Full report yields the value immediately with the
cell untouched (no lock acquisition, no signal); otherwise the
operation waits for Full, reads the value and re-signals the
full-waiters. -/
theorem single_readFF_fast_and_slow (y : SingleCell) (x : Int)
    (h : y.is_full = true) :
    (∀ f : Bool, chpl_single_read_FF true f x y = some ⟨y.value, y, []⟩) ∧
    (∃ r, chpl_single_read_FF false false x y = some r ∧
      r.dest = y.value ∧ r.cell.is_full = true ∧
      r.cell.lockHeld = false ∧ r.events = [Event.signalFull]) := by
  constructor
  · intro f
    simp [chpl_single_read_FF]
  · simp [chpl_single_read_FF, chpl_single_wait_full, h,
      chpl_single_mark_and_signal_full]

/-- Witness for C4 at a concrete Full cell holding 9. -/
theorem single_readFF_fast_and_slow_witness :
    (SingleCell.mk 9 true false).is_full = true ∧
    ((∀ f : Bool, chpl_single_read_FF true f 0 (SingleCell.mk 9 true false)
        = some ⟨(SingleCell.mk 9 true false).value,
            SingleCell.mk 9 true false, []⟩) ∧
     (∃ r, chpl_single_read_FF false false 0 (SingleCell.mk 9 true false)
        = some r ∧
       r.dest = (SingleCell.mk 9 true false).value ∧ r.cell.is_full = true ∧
       r.cell.lockHeld = false ∧ r.events = [Event.signalFull])) :=
  ⟨rfl, single_readFF_fast_and_slow (SingleCell.mk 9 true false) 0 rfl⟩

/-- C5: for a sync cell made Full by `writeEF(c, v)`, a subsequent
`readFF(c)` returns v, leaves the state Full and the value v, and
re-signals the full-side condition variable. -/
theorem sync_readFF_after_writeEF (c : SyncCell) (v x : Int)
    (h : c.is_full = false) :
    ∃ r1, chpl_write_EF false v c = some r1 ∧
    ∃ r2, chpl_read_FF false x r1.cell = some r2 ∧
      r2.dest = v ∧ r2.cell.is_full = true ∧ r2.cell.value = v ∧
      r2.events = [Event.signalFull] := by
  simp [chpl_write_EF, chpl_sync_wait_empty_and_lock, h,
    chpl_sync_mark_and_signal_full, chpl_read_FF,
    chpl_sync_wait_full_and_lock]

/-- Witness for C5 at a concrete Empty cell and value 11. -/
theorem sync_readFF_after_writeEF_witness :
    (SyncCell.mk 0 false false).is_full = false ∧
    (∃ r1, chpl_write_EF false 11 (SyncCell.mk 0 false false) = some r1 ∧
     ∃ r2, chpl_read_FF false 0 r1.cell = some r2 ∧
       r2.dest = 11 ∧ r2.cell.is_full = true ∧ r2.cell.value = 11 ∧
       r2.events = [Event.signalFull]) :=
  ⟨rfl, sync_readFF_after_writeEF (SyncCell.mk 0 false false) 11 0 rfl⟩

/-- C6: on a Full sync cell, `writeFF(c, v2)` sets the value to v2
while the state stays Full, and a following `readFF(c)` returns v2. -/
theorem sync_writeFF_on_full (c : SyncCell) (v2 x : Int)
    (h : c.is_full = true) :
    ∃ r1, chpl_write_FF false v2 c = some r1 ∧
      r1.cell.value = v2 ∧ r1.cell.is_full = true ∧
      (∃ r2, chpl_read_FF false x r1.cell = some r2 ∧ r2.dest = v2) := by
  simp [chpl_write_FF, chpl_sync_wait_full_and_lock, h,
    chpl_sync_mark_and_signal_full, chpl_read_FF]

/-- Witness for C6 at a concrete Full cell and value 8. -/
theorem sync_writeFF_on_full_witness :
    (SyncCell.mk 3 true false).is_full = true ∧
    (∃ r1, chpl_write_FF false 8 (SyncCell.mk 3 true false) = some r1 ∧
      r1.cell.value = 8 ∧ r1.cell.is_full = true ∧
      (∃ r2, chpl_read_FF false 0 r1.cell = some r2 ∧ r2.dest = 8)) :=
  ⟨rfl, sync_writeFF_on_full (SyncCell.mk 3 true false) 8 0 rfl⟩

/-- C7: `reset` on a sync cell in any state leaves it Empty with the
default value 0 and signals the empty-side condition variable. -/
theorem sync_reset_spec (c : SyncCell) :
    chpl_sync_reset false c
      = ⟨SyncCell.mk 0 false false, [Event.signalEmpty]⟩ := rfl

/-- C8: `readFE` changes only the fullness state and never the stored
value: on any Full cell the value field survives the read, and in the
concrete scenario `writeEF(c, v)` then `readFE(c)` leaves an Empty cell
on which `readXX(c)` still returns v. -/
theorem sync_readFE_frame (c : SyncCell) (v x x2 : Int)
    (h : c.is_full = false) :
    (∀ d : SyncCell, ∀ y : Int, d.is_full = true →
       ∃ r, chpl_read_FE false y d = some r ∧
         r.cell.value = d.value ∧ r.cell.is_full = false) ∧
    (∃ r1, chpl_write_EF false v c = some r1 ∧
     ∃ r2, chpl_read_FE false x r1.cell = some r2 ∧
       r2.cell.is_full = false ∧ r2.cell.value = v ∧
       (chpl_read_XX false x2 r2.cell).dest = v) := by
  constructor
  · intro d y hd
    simp [chpl_read_FE, chpl_sync_wait_full_and_lock, hd,
      chpl_sync_mark_and_signal_empty]
  · simp [chpl_write_EF, chpl_sync_wait_empty_and_lock, h,
      chpl_sync_mark_and_signal_full, chpl_read_FE,
      chpl_sync_wait_full_and_lock, chpl_sync_mark_and_signal_empty,
      chpl_read_XX, chpl_sync_lock, chpl_sync_unlock]

/-- Witness for C8 at a concrete Empty cell and value 42. -/
theorem sync_readFE_frame_witness :
    (SyncCell.mk 0 false false).is_full = false ∧
    ((∀ d : SyncCell, ∀ y : Int, d.is_full = true →
       ∃ r, chpl_read_FE false y d = some r ∧
         r.cell.value = d.value ∧ r.cell.is_full = false) ∧
     (∃ r1, chpl_write_EF false 42 (SyncCell.mk 0 false false) = some r1 ∧
      ∃ r2, chpl_read_FE false 0 r1.cell = some r2 ∧
        r2.cell.is_full = false ∧ r2.cell.value = 42 ∧
        (chpl_read_XX false 0 r2.cell).dest = 42)) :=
  ⟨rfl, sync_readFE_frame (SyncCell.mk 0 false false) 42 0 0 rfl⟩

/-- C9: the double-write error branch of the single-cell `writeEF`
returns with the lock still held, while the success branch releases it
through `chpl_single_mark_and_signal_full`. -/
theorem single_writeEF_lock_branches (s : SingleCell) (v : Int) :
    (s.is_full = true →
      (chpl_single_write_EF false v s).cell.lockHeld = true ∧
      (chpl_single_write_EF false v s).events
        = [Event.userError "single var already defined"]) ∧
    (s.is_full = false →
      (chpl_single_write_EF false v s).cell.lockHeld = false) := by
  constructor
  · intro h
    simp [chpl_single_write_EF, chpl_single_lock, h]
  · intro h
    simp [chpl_single_write_EF, chpl_single_lock, h,
      chpl_single_mark_and_signal_full]

/-- Witness for C9: the error branch at a Full cell keeps the lock,
the success branch at an Empty cell releases it. -/
theorem single_writeEF_lock_branches_witness :
    ((chpl_single_write_EF false 7 (SingleCell.mk 5 true false)).cell.lockHeld
        = true ∧
     (chpl_single_write_EF false 7 (SingleCell.mk 5 true false)).events
        = [Event.userError "single var already defined"]) ∧
    (chpl_single_write_EF false 7 (SingleCell.mk 0 false false)).cell.lockHeld
        = false :=
  ⟨(single_writeEF_lock_branches (SingleCell.mk 5 true false) 7).1 rfl,
   (single_writeEF_lock_branches (SingleCell.mk 0 false false) 7).2 rfl⟩

/-- C10: the single-cell `reset` sets the value to the default 0 and
clears the fullness flag directly: the lock status is untouched (no
acquisition) and no event is emitted, so no condition variable is
signalled and no task blocked in `readFF` is woken. -/
theorem single_reset_spec (s : SingleCell) :
    chpl_single_reset s = (SingleCell.mk 0 false s.lockHeld, []) := rfl
